import Mathlib

/-!
Verification of the Honeywell Lyric custom integration
(`custom_components/lyric_my`): a shallow embedding of the two pure
functions in `sensor.py` (`get_setpoint_status` and
`get_datetime_from_future_time`) together with the entity-registration
logic of the `async_setup_entry` callbacks in `sensor.py` and
`binary_sensor.py`, and proofs of the specified properties.
-/

namespace LyricMy

/-! ## Hold-mode preset tokens

Modelled from the spec: the `PRESET_*` hold-mode tokens are imported
from `custom_components/lyric_my/const.py`, which is not under `src/`.
The spec describes them as "a small closed set of hold-mode tokens" and
names the no-hold token via the example `input "no hold" → "Following
Schedule"`; the five tokens are distinct codes. -/

def PRESET_NO_HOLD : String := "no hold"

def PRESET_HOLD_UNTIL : String := "hold until"

def PRESET_PERMANENT_HOLD : String := "permanent hold"

def PRESET_TEMPORARY_HOLD : String := "temporary hold"

def PRESET_VACATION_HOLD : String := "vacation hold"

/-! ## Setpoint status formatter (`sensor.py` lines 38-43 and 225-229) -/

/-- `LYRIC_SETPOINT_STATUS_NAMES` (`sensor.py` lines 38-43): the fixed
code → label table, as an association list in insertion order. -/
def LYRIC_SETPOINT_STATUS_NAMES : List (String × String) :=
  [(PRESET_NO_HOLD, "Following Schedule"),
   (PRESET_PERMANENT_HOLD, "Held Permanently"),
   (PRESET_TEMPORARY_HOLD, "Held Temporarily"),
   (PRESET_VACATION_HOLD, "Holiday")]

/-- Python `dict.get(key)`: the value at the first matching key, else
`none`. -/
def dictGet (d : List (String × String)) (key : String) : Option String :=
  (d.find? (fun p => p.1 == key)).map Prod.snd

/-- `get_setpoint_status` (`sensor.py` lines 225-229): on the
hold-until code, format `"Held until {time}"`; otherwise look the code
up in `LYRIC_SETPOINT_STATUS_NAMES` (Python `dict.get` returns `None`
on a missing key). -/
def get_setpoint_status (status : String) (time : String) : Option String :=
  if status == PRESET_HOLD_UNTIL then
    some ("Held until " ++ time)
  else
    dictGet LYRIC_SETPOINT_STATUS_NAMES status

/-! ## Time-of-day parsing (`homeassistant.util.dt.parse_time`)

`sensor.py` calls `dt_util.parse_time`, an external host-framework
helper: it splits the string on `":"`, requires at least two parts,
converts the first two (and, when present, the third) with Python
`int()`, and builds `datetime.time(hour, minute, second)`, returning
`None` when conversion or the range check fails.  We embed it over
`List Char` so that it evaluates by kernel reduction. -/

/-- A parsed time-of-day value (`datetime.time` with zero
microseconds, as produced by `parse_time`). -/
structure PTime where
  hour : Nat
  minute : Nat
  second : Nat
  deriving Repr, DecidableEq

/-- Seconds since midnight of a parsed time. -/
def PTime.toSeconds (t : PTime) : Nat :=
  t.hour * 3600 + t.minute * 60 + t.second

/-- Split a character list at every `':'` (Python `str.split(":")`):
always at least one part, empty parts preserved. -/
def splitColon : List Char → List Char → List (List Char)
  | [], acc => [acc.reverse]
  | c :: cs, acc =>
      if c = ':' then acc.reverse :: splitColon cs []
      else splitColon cs (c :: acc)

/-- Value of a nonempty all-digit character list, else `none`. -/
def digitsVal (cs : List Char) : Option Nat :=
  if cs ≠ [] ∧ cs.all Char.isDigit then
    some (cs.foldl (fun acc c => acc * 10 + (c.toNat - 48)) 0)
  else
    none

/-- Python `int(str)` on a character list: surrounding whitespace is
stripped, then an optional sign followed by digits.  (Underscore digit
separators and non-ASCII digits accepted by CPython are not modelled;
no input relevant here contains them.) -/
def pyInt (cs : List Char) : Option Int :=
  let cs := ((cs.dropWhile Char.isWhitespace).reverse.dropWhile
    Char.isWhitespace).reverse
  match cs with
  | '-' :: ds => (digitsVal ds).map (fun n => -(n : Int))
  | '+' :: ds => (digitsVal ds).map (fun n => (n : Int))
  | ds => (digitsVal ds).map (fun n => (n : Int))

/-- `datetime.time(hour, minute, second)`: range-checked construction;
out-of-range components raise `ValueError`, which `parse_time` turns
into `None`. -/
def mkTime (h m s : Int) : Option PTime :=
  if 0 ≤ h ∧ h < 24 ∧ 0 ≤ m ∧ m < 60 ∧ 0 ≤ s ∧ s < 60 then
    some ⟨h.toNat, m.toNat, s.toNat⟩
  else
    none

/-- `homeassistant.util.dt.parse_time`: split on `":"`, need at least
two parts, `int()` the first two and (when present) the third part,
range-check via `datetime.time`; any failure yields `None`. -/
def parse_time (time_str : String) : Option PTime :=
  match splitColon time_str.data [] with
  | [] => none
  | [_] => none
  | p0 :: p1 :: rest =>
    match pyInt p0, pyInt p1 with
    | some h, some m =>
      match rest with
      | [] => mkTime h m 0
      | p2 :: _ =>
        match pyInt p2 with
        | some s => mkTime h m s
        | none => none
    | _, _ => none

/-! ## Future-time resolver (`sensor.py` lines 232-240)

Instants are modelled as `Nat` seconds since the epoch in the fixed
UTC reference of the spec (`dt_util.utcnow` is UTC; with the reference
fixed to UTC, `dt_util.as_utc` on the naive combined datetime is the
identity on the instant).  `now.time()` is `now % 86400` and
`now.date()` is `now / 86400`; sub-second precision of `utcnow` is
below the one-second granularity at which the spec states the
comparison. -/

def secondsPerDay : Nat := 86400

/-- `get_datetime_from_future_time` (`sensor.py` lines 232-240): parse
the time-of-day, raise `ValueError` (modelled as `Except.error`) when
parsing fails; if the parsed time is `<=` the current time-of-day,
advance `now` by one day; return the instant combining that date with
the parsed time. -/
def get_datetime_from_future_time (now : Nat) (time_str : String) :
    Except String Nat :=
  match parse_time time_str with
  | none => Except.error ("Unable to parse time " ++ time_str)
  | some t =>
      let now2 := if t.toSeconds ≤ now % secondsPerDay then
        now + secondsPerDay else now
      Except.ok ((now2 / secondsPerDay) * secondsPerDay + t.toSeconds)

/-! ## Entity registration in the setup callbacks

`async_setup_entry` in `sensor.py` (lines 243-284) and
`binary_sensor.py` (lines 82-99) registers entities with generator
expressions over `coordinator.data`.  Devices, rooms and accessories
are opaque records here; descriptors carry their `suitable_fn`
predicate (`if cond:` in Python tests truthiness of its value, modelled
as the `Bool` the guard evaluates to). -/

/-- A sensor entity descriptor as the setup code consumes it: its key
and its applicability predicate `suitable_fn`. -/
structure SensorDescr (Device : Type) where
  key : String
  suitable_fn : Device → Bool

/-- An accessory (room) sensor entity descriptor
(`LyricSensorAccessoryEntityDescription`): `suitable_fn` takes the room
and the accessory. -/
structure AccessorySensorDescr (Room Accessory : Type) where
  key : String
  suitable_fn : Room → Accessory → Bool

/-- The part of `coordinator.data` the setup callbacks traverse:
`locations` (each with its `devices`), `rooms_dict` keyed by device
(empty list when the device's mac id is absent), and each room's
`accessories`. -/
structure CoordinatorData (Device Room Accessory : Type) where
  locations : List (List Device)
  rooms : Device → List Room
  accessories : Room → List Accessory

/-- `binary_sensor.py` `async_setup_entry` (lines 88-99): one
`LyricLeakBinarySensor` per location, device and descriptor; the
`if device_sensor.suitable_fn(device)` guard is commented out
(line 98), so no filtering happens. -/
def binary_sensor_setup_entities {D R A : Type}
    (data : CoordinatorData D R A) (descs : List (SensorDescr D)) :
    List (D × SensorDescr D) :=
  data.locations.flatMap fun devices =>
    devices.flatMap fun device =>
      descs.map fun ds => (device, ds)

/-- `sensor.py` `async_setup_entry`, first `async_add_entities` call
(lines 249-260): one `LyricSensor` per location, device and descriptor
in `DEVICE_SENSORS` whose `suitable_fn` holds on the device. -/
def sensor_setup_device_entities {D R A : Type}
    (data : CoordinatorData D R A) (descs : List (SensorDescr D)) :
    List (D × SensorDescr D) :=
  data.locations.flatMap fun devices =>
    devices.flatMap fun device =>
      (descs.filter fun ds => ds.suitable_fn device).map fun ds =>
        (device, ds)

/-- `sensor.py` `async_setup_entry`, second `async_add_entities` call
(lines 262-272): one `LyricLeakSensor` per location, device and
descriptor in `LEAK_SENSORS`, with no `suitable_fn` guard at all. -/
def sensor_setup_leak_entities {D R A : Type}
    (data : CoordinatorData D R A) (descs : List (SensorDescr D)) :
    List (D × SensorDescr D) :=
  data.locations.flatMap fun devices =>
    devices.flatMap fun device =>
      descs.map fun ds => (device, ds)

/-- `sensor.py` `async_setup_entry`, third `async_add_entities` call
(lines 274-284): one `LyricAccessorySensor` per location, device, room
of the device, accessory of the room and descriptor in
`ACCESSORY_SENSORS` whose `suitable_fn` holds on the room and
accessory. -/
def sensor_setup_accessory_entities {D R A : Type}
    (data : CoordinatorData D R A)
    (descs : List (AccessorySensorDescr R A)) :
    List (D × R × A × AccessorySensorDescr R A) :=
  data.locations.flatMap fun devices =>
    devices.flatMap fun device =>
      (data.rooms device).flatMap fun room =>
        (data.accessories room).flatMap fun accessory =>
          (descs.filter fun ds => ds.suitable_fn room accessory).map
            fun ds => (device, room, accessory, ds)

/-! ## Helper lemmas -/

/-- `datetime.time` only constructs in-range values. -/
theorem mkTime_bounds {h m s : Int} {t : PTime}
    (hmk : mkTime h m s = some t) :
    t.hour < 24 ∧ t.minute < 60 ∧ t.second < 60 := by
  unfold mkTime at hmk
  split at hmk
  · rename_i hcond
    cases hmk
    obtain ⟨h0, h1, h2, h3, h4, h5⟩ := hcond
    refine ⟨?_, ?_, ?_⟩ <;> simp only [] <;> omega
  · exact absurd hmk (by simp)

/-- Every successfully parsed time-of-day lies within the day. -/
theorem parse_time_toSeconds_lt {s : String} {t : PTime}
    (hp : parse_time s = some t) : t.toSeconds < secondsPerDay := by
  have hb : t.hour < 24 ∧ t.minute < 60 ∧ t.second < 60 := by
    unfold parse_time at hp
    repeat' split at hp
    all_goals first
      | exact mkTime_bounds hp
      | exact absurd hp (by simp)
  unfold PTime.toSeconds secondsPerDay
  omega

/-! ## Claim theorems: setpoint status formatter -/

/-- C2: for every time string, `get_setpoint_status` on the hold-until
preset returns exactly `"Held until {time}"` with the time
interpolated; the code-to-label table is never consulted on this
branch. -/
theorem c2_hold_until_formats_time (time : String) :
    get_setpoint_status PRESET_HOLD_UNTIL time =
      some ("Held until " ++ time) := by
  simp [get_setpoint_status]

/-- C4: every status code in the fixed table other than the hold-until
preset maps to its exact label: no-hold to "Following Schedule",
permanent-hold to "Held Permanently", temporary-hold to "Held
Temporarily", vacation-hold to "Holiday"; in particular the input
"no hold" yields "Following Schedule". -/
theorem c4_table_codes_map_to_labels :
    (∀ time, get_setpoint_status PRESET_NO_HOLD time =
      some "Following Schedule") ∧
    (∀ time, get_setpoint_status PRESET_PERMANENT_HOLD time =
      some "Held Permanently") ∧
    (∀ time, get_setpoint_status PRESET_TEMPORARY_HOLD time =
      some "Held Temporarily") ∧
    (∀ time, get_setpoint_status PRESET_VACATION_HOLD time =
      some "Holiday") ∧
    (∀ time, get_setpoint_status "no hold" time =
      some "Following Schedule") := by
  refine ⟨fun _ => ?_, fun _ => ?_, fun _ => ?_, fun _ => ?_, fun _ => ?_⟩ <;>
    simp [get_setpoint_status, dictGet, LYRIC_SETPOINT_STATUS_NAMES,
      PRESET_NO_HOLD, PRESET_HOLD_UNTIL, PRESET_PERMANENT_HOLD,
      PRESET_TEMPORARY_HOLD, PRESET_VACATION_HOLD, List.find?]

/-- C5: a status code that is neither the hold-until preset nor a key
of the fixed table yields `none` (Python `dict.get` returns `None`;
no exception is raised). -/
theorem c5_unknown_code_returns_none (status time : String)
    (h1 : status ≠ PRESET_HOLD_UNTIL)
    (h2 : status ∉ LYRIC_SETPOINT_STATUS_NAMES.map Prod.fst) :
    get_setpoint_status status time = none := by
  simp only [LYRIC_SETPOINT_STATUS_NAMES, List.map, List.mem_cons,
    List.not_mem_nil, or_false, not_or] at h2
  obtain ⟨hn, hp, ht, hv⟩ := h2
  have hn' : (PRESET_NO_HOLD == status) = false :=
    beq_eq_false_iff_ne.mpr (Ne.symm hn)
  have hp' : (PRESET_PERMANENT_HOLD == status) = false :=
    beq_eq_false_iff_ne.mpr (Ne.symm hp)
  have ht' : (PRESET_TEMPORARY_HOLD == status) = false :=
    beq_eq_false_iff_ne.mpr (Ne.symm ht)
  have hv' : (PRESET_VACATION_HOLD == status) = false :=
    beq_eq_false_iff_ne.mpr (Ne.symm hv)
  simp [get_setpoint_status, dictGet, LYRIC_SETPOINT_STATUS_NAMES,
    List.find?, h1, hn', hp', ht', hv']

/-- C5 witness: the unrecognized code "HoldBogus" returns `none`. -/
theorem c5_unknown_code_returns_none_witness :
    "HoldBogus" ≠ PRESET_HOLD_UNTIL ∧
    "HoldBogus" ∉ LYRIC_SETPOINT_STATUS_NAMES.map Prod.fst ∧
    get_setpoint_status "HoldBogus" "12:00:00" = none :=
  ⟨by decide, by decide,
    c5_unknown_code_returns_none "HoldBogus" "12:00:00"
      (by decide) (by decide)⟩

/-- C8: `get_setpoint_status` and `get_datetime_from_future_time` are
pure and deterministic: two calls with identical inputs (including the
same current time for the resolver) yield identical outputs — both are
total functions of their arguments, with no hidden state. -/
theorem c8_formatter_and_resolver_deterministic
    (status time : String) (now : Nat) (time_str : String) :
    get_setpoint_status status time = get_setpoint_status status time ∧
    get_datetime_from_future_time now time_str =
      get_datetime_from_future_time now time_str :=
  ⟨rfl, rfl⟩

/-- C10: for every status code other than the hold-until preset, the
formatter's output never depends on the time argument. -/
theorem c10_non_hold_until_ignores_time (status t1 t2 : String)
    (h : status ≠ PRESET_HOLD_UNTIL) :
    get_setpoint_status status t1 = get_setpoint_status status t2 := by
  simp [get_setpoint_status, h]

/-- C10 witness: "no hold" gives the same output for two distinct time
strings. -/
theorem c10_non_hold_until_ignores_time_witness :
    "no hold" ≠ PRESET_HOLD_UNTIL ∧
    get_setpoint_status "no hold" "01:00:00" =
      get_setpoint_status "no hold" "23:59:59" :=
  ⟨by decide,
    c10_non_hold_until_ignores_time "no hold" "01:00:00" "23:59:59"
      (by decide)⟩

/-! ## Claim theorems: future-time resolver -/

/-- C1: when the input parses, the resolver succeeds and the returned
instant's date is today's date when the parsed time is strictly later
than the current time-of-day, and tomorrow's date when the parsed time
is earlier than or equal to the current time-of-day — equality rolls
to tomorrow. -/
theorem c1_resolver_today_or_tomorrow (time_str : String) (t : PTime)
    (now : Nat) (hp : parse_time time_str = some t) :
    ∃ r, get_datetime_from_future_time now time_str = Except.ok r ∧
      (now % secondsPerDay < t.toSeconds →
        r / secondsPerDay = now / secondsPerDay) ∧
      (t.toSeconds ≤ now % secondsPerDay →
        r / secondsPerDay = now / secondsPerDay + 1) := by
  have hlt := parse_time_toSeconds_lt hp
  simp only [secondsPerDay] at hlt ⊢
  simp only [get_datetime_from_future_time, hp, secondsPerDay]
  refine ⟨_, rfl, ?_, ?_⟩ <;> intro hc <;> split <;> omega

/-- C1 witness: at current time 01:00:00 the input "12:00:00" resolves
to today; the strictly-later hypothesis is discharged concretely. -/
theorem c1_resolver_today_or_tomorrow_witness :
    parse_time "12:00:00" = some ⟨12, 0, 0⟩ ∧
    (∃ r, get_datetime_from_future_time 3600 "12:00:00" = Except.ok r ∧
      (3600 % secondsPerDay < PTime.toSeconds ⟨12, 0, 0⟩ →
        r / secondsPerDay = 3600 / secondsPerDay) ∧
      (PTime.toSeconds ⟨12, 0, 0⟩ ≤ 3600 % secondsPerDay →
        r / secondsPerDay = 3600 / secondsPerDay + 1)) :=
  ⟨by decide,
    c1_resolver_today_or_tomorrow "12:00:00" ⟨12, 0, 0⟩ 3600 (by decide)⟩

/-- C3: when the input does not parse as a time-of-day, the resolver
fails with the parse error (`ValueError` in the source), which
propagates to the caller: the `some` branch is never taken and no
recovery happens. -/
theorem c3_resolver_parse_error (time_str : String) (now : Nat)
    (hp : parse_time time_str = none) :
    get_datetime_from_future_time now time_str =
      Except.error ("Unable to parse time " ++ time_str) := by
  simp [get_datetime_from_future_time, hp]

/-- C3 witness: "not-a-time" does not parse and the resolver errors. -/
theorem c3_resolver_parse_error_witness :
    parse_time "not-a-time" = none ∧
    get_datetime_from_future_time 0 "not-a-time" =
      Except.error ("Unable to parse time " ++ "not-a-time") :=
  ⟨by decide, c3_resolver_parse_error "not-a-time" 0 (by decide)⟩

/-- C6: when the input parses, the resolver succeeds and the returned
instant — expressed in the fixed UTC reference in which the model
states all instants — has time-of-day component equal to the parsed
input time. -/
theorem c6_resolver_preserves_time_of_day (time_str : String)
    (t : PTime) (now : Nat) (hp : parse_time time_str = some t) :
    ∃ r, get_datetime_from_future_time now time_str = Except.ok r ∧
      r % secondsPerDay = t.toSeconds := by
  have hlt := parse_time_toSeconds_lt hp
  simp only [secondsPerDay] at hlt ⊢
  simp only [get_datetime_from_future_time, hp, secondsPerDay]
  refine ⟨_, rfl, ?_⟩
  split <;> omega

/-- C6 witness: resolving "12:00:00" at instant 3600 yields an instant
whose time-of-day is 43200 seconds. -/
theorem c6_resolver_preserves_time_of_day_witness :
    parse_time "12:00:00" = some ⟨12, 0, 0⟩ ∧
    (∃ r, get_datetime_from_future_time 3600 "12:00:00" = Except.ok r ∧
      r % secondsPerDay = PTime.toSeconds ⟨12, 0, 0⟩) :=
  ⟨by decide,
    c6_resolver_preserves_time_of_day "12:00:00" ⟨12, 0, 0⟩ 3600
      (by decide)⟩

/-- C7: when the input parses, the returned instant is strictly later
than the current instant `now` at which the resolver is evaluated. -/
theorem c7_resolver_strictly_future (time_str : String) (t : PTime)
    (now : Nat) (hp : parse_time time_str = some t) :
    ∃ r, get_datetime_from_future_time now time_str = Except.ok r ∧
      now < r := by
  have hlt := parse_time_toSeconds_lt hp
  simp only [secondsPerDay] at hlt ⊢
  simp only [get_datetime_from_future_time, hp, secondsPerDay]
  refine ⟨_, rfl, ?_⟩
  split <;> omega

/-- C7 witness: resolving "12:00:00" at the tie-break instant 43200
(12:00:00) yields a strictly later instant. -/
theorem c7_resolver_strictly_future_witness :
    parse_time "12:00:00" = some ⟨12, 0, 0⟩ ∧
    (∃ r, get_datetime_from_future_time 43200 "12:00:00" = Except.ok r ∧
      43200 < r) :=
  ⟨by decide,
    c7_resolver_strictly_future "12:00:00" ⟨12, 0, 0⟩ 43200 (by decide)⟩

/-! ## Claim theorems: setup-callback registration -/

/-- An unfiltered two-level comprehension produces one element per
pair: its length is the device count times the descriptor count. -/
theorem length_unfiltered_product {α β γ : Type} (ls : List (List α))
    (descs : List β) (f : α → β → γ) :
    ((ls.flatMap fun xs => xs.flatMap fun x =>
      descs.map fun d => f x d).length)
      = (ls.map List.length).sum * descs.length := by
  induction ls with
  | nil => simp
  | cons xs ls ih =>
    have hinner : ((xs.flatMap fun x => descs.map fun d => f x d).length)
        = xs.length * descs.length := by
      induction xs with
      | nil => simp
      | cons y ys ihy => simp [ihy, Nat.succ_mul, Nat.add_comm]
    simp [hinner, ih, Nat.add_mul]

/-- C9: the setup callbacks treat `suitable_fn` inconsistently.  The
binary-sensor setup and the leak-sensor group register one entity per
descriptor for every device of every location unconditionally (exactly
`#devices * #descriptors` entities, membership needing no predicate),
while the thermostat device-sensor and accessory-sensor groups
register a descriptor only when its `suitable_fn` returns true. -/
theorem c9_setup_suitable_fn_inconsistency {D R A : Type}
    (data : CoordinatorData D R A) (descs : List (SensorDescr D))
    (adescs : List (AccessorySensorDescr R A)) (d : D)
    (ds : SensorDescr D) (room : R) (acc : A)
    (ads : AccessorySensorDescr R A) :
    ((d, ds) ∈ binary_sensor_setup_entities data descs ↔
      (∃ devs ∈ data.locations, d ∈ devs) ∧ ds ∈ descs) ∧
    ((binary_sensor_setup_entities data descs).length
      = (data.locations.map List.length).sum * descs.length) ∧
    ((d, ds) ∈ sensor_setup_leak_entities data descs ↔
      (∃ devs ∈ data.locations, d ∈ devs) ∧ ds ∈ descs) ∧
    ((sensor_setup_leak_entities data descs).length
      = (data.locations.map List.length).sum * descs.length) ∧
    ((d, ds) ∈ sensor_setup_device_entities data descs ↔
      (∃ devs ∈ data.locations, d ∈ devs) ∧ ds ∈ descs ∧
        ds.suitable_fn d = true) ∧
    ((d, room, acc, ads) ∈ sensor_setup_accessory_entities data adescs ↔
      (∃ devs ∈ data.locations, d ∈ devs) ∧ room ∈ data.rooms d ∧
        acc ∈ data.accessories room ∧ ads ∈ adescs ∧
        ads.suitable_fn room acc = true) := by
  refine ⟨?_, ?_, ?_, ?_, ?_, ?_⟩
  · simp only [binary_sensor_setup_entities, List.mem_flatMap,
      List.mem_map, Prod.mk.injEq]
    aesop
  · exact length_unfiltered_product data.locations descs Prod.mk
  · simp only [sensor_setup_leak_entities, List.mem_flatMap,
      List.mem_map, Prod.mk.injEq]
    aesop
  · exact length_unfiltered_product data.locations descs Prod.mk
  · simp only [sensor_setup_device_entities, List.mem_flatMap,
      List.mem_map, List.mem_filter, Prod.mk.injEq]
    aesop
  · simp only [sensor_setup_accessory_entities, List.mem_flatMap,
      List.mem_map, List.mem_filter, Prod.mk.injEq]
    aesop

end LyricMy
